import Mathlib

/-!
# Verification of the LINE Bot MCP SSE server (src/index.ts)

A shallow embedding of the session/completion coordinator of the server:

* the tool handlers (`push_text_message`, `push_flex_message`, `get_profile`,
  src/index.ts lines 80-127, 164-211, 225-269), which call the remote
  messaging API inside a try/catch, fire the session's completion callback
  when present, and return a Tool Result;
* the completion-callback table (line 59) and transport table (line 277),
  modelled as association lists keyed by session id;
* the HTTP front door: the SSE close handler (lines 324-329) and the
  `POST /messages` endpoint (lines 349-398), which registers a completion
  promise, dispatches the message, and awaits the promise.

Promises are given explicit identities (`Nat`): registering a completion
stores the promise id of the new resolve closure in the table, firing a
callback records its promise id as resolved.  An event-step semantics
(`step`/`runEvents`) captures the interleavings of SSE opens, closes, tool
dispatches and POST arrivals that the claims quantify over.
-/

set_option autoImplicit false

namespace LineBotMcp

/-- JSON values, the payloads the remote messaging API returns
(`pushMessage` / `getProfile` responses). -/
inductive Json where
  | null : Json
  | bool (b : Bool) : Json
  | num (n : Int) : Json
  | str (s : String) : Json
  | arr (items : List Json) : Json
  | obj (fields : List (String × Json)) : Json

/-- `JSON.stringify` on the values above (line 101 etc.): the serialization
applied to a remote API response before it is placed in a Tool Result. -/
def Json.encode : Json → String
  | .null => "null"
  | .bool true => "true"
  | .bool false => "false"
  | .num n => toString n
  | .str s => "\"" ++ s ++ "\""
  | .arr items => "[" ++ String.intercalate ","
      (items.attach.map (fun x => Json.encode x.1)) ++ "]"
  | .obj fields => "\x7b" ++ String.intercalate ","
      (fields.attach.map (fun f => "\"" ++ f.1.1 ++ "\":" ++ Json.encode f.1.2)) ++ "\x7d"
decreasing_by
  · simp_wf
    have h := List.sizeOf_lt_of_mem x.2
    omega
  · simp_wf
    obtain ⟨⟨a, b⟩, hmem⟩ := f
    have h := List.sizeOf_lt_of_mem hmem
    simp only [Prod.mk.sizeOf_spec] at h ⊢
    omega

/-- One element of a Tool Result's `content` array,
e.g. `\x7b type: "text", text: ... \x7d`. -/
structure ContentItem where
  type : String
  text : String
deriving Repr, DecidableEq

/-- A Tool Result as returned by the handlers: `isError` is `false` when the
field is absent from the returned object (success branch, lines 97-104) and
`true` in the catch branch (lines 116-124). -/
structure ToolResult where
  isError : Bool
  content : List ContentItem
deriving Repr, DecidableEq

/-- Outcome of a remote messaging-API call (`pushMessage` / `getProfile`):
the awaited promise either fulfils with a response value or rejects
(throws) with an error carrying a message. -/
inductive RemoteOutcome where
  | ok (response : Json) : RemoteOutcome
  | thrown (message : String) : RemoteOutcome

/-- The completion-callback table (line 59):
`const completionCallbacks: \x7b [sessionId: string]: () => void \x7d = \x7b\x7d`.
Each stored closure is identified by the id of the promise its call
resolves, so an entry is a pair of session id and promise id. -/
abbrev CallbackTable := List (String × Nat)

/-- `delete completionCallbacks[sid]` (lines 327, 390): a JS object holds at
most one entry per key, so deletion removes every pair with that key. -/
def removeKey (t : CallbackTable) (sid : String) : CallbackTable :=
  t.filter (fun e => e.1 != sid)

/-- `completionCallbacks[sid] = resolve` (line 360): JS assignment replaces
any existing entry for the key. -/
def insertKey (t : CallbackTable) (sid : String) (p : Nat) : CallbackTable :=
  (sid, p) :: removeKey t sid

/-- `completionCallbacks[sid]` read access: `some p` when an entry (the
closure resolving promise `p`) is stored, `none` when the property is
absent (JS `undefined`). -/
def lookupCallback (t : CallbackTable) (sid : String) : Option Nat :=
  t.lookup sid

/-- What one tool-handler execution produces: the Tool Result it returns and
the list of promise ids of the completion callbacks it invoked. -/
structure HandlerOutput where
  result : ToolResult
  signaled : List Nat
deriving Repr, DecidableEq

/-- The shared body of the three tool handlers (lines 84-125, 168-209,
229-267): await the remote call inside try/catch; in either branch, fire
the completion callback iff `extra?.sessionId` is set and an entry exists
for it; return the success Tool Result (`JSON.stringify` of the response)
or the failure Tool Result (`isError: true`, `"Error: " + message`).  The
function is total: a thrown remote error is captured, never re-thrown. -/
def runHandler (callbacks : CallbackTable) (extraSessionId : Option String)
    (outcome : RemoteOutcome) : HandlerOutput :=
  let signaled : List Nat :=
    match extraSessionId with
    | none => []
    | some sid =>
      match lookupCallback callbacks sid with
      | some p => [p]
      | none => []
  match outcome with
  | .ok response =>
      { result := { isError := false,
                    content := [{ type := "text", text := Json.encode response }] },
        signaled := signaled }
  | .thrown message =>
      { result := { isError := true,
                    content := [{ type := "text", text := "Error: " ++ message }] },
        signaled := signaled }

/-- `const destinationId = process.env.DESTINATION_USER_ID || ""` (line 48):
the process-wide default destination, the empty string when the variable is
unset. -/
def destinationId (envDestinationUserId : Option String) : String :=
  match envDestinationUserId with
  | some s => s
  | none => ""

/-- The `push_text_message` handler (lines 80-127): sends to
`userId ?? destinationId` and runs the shared try/catch body. -/
def pushTextHandler (callbacks : CallbackTable) (extraSessionId : Option String)
    (envDest : Option String) (userId : Option String) (message : Json)
    (pushMessage : String → Json → RemoteOutcome) : HandlerOutput :=
  runHandler callbacks extraSessionId
    (pushMessage (userId.getD (destinationId envDest)) message)

/-- The `push_flex_message` handler (lines 164-211): identical control flow
to `push_text_message`, sending to `userId ?? destinationId`. -/
def pushFlexHandler (callbacks : CallbackTable) (extraSessionId : Option String)
    (envDest : Option String) (userId : Option String) (message : Json)
    (pushMessage : String → Json → RemoteOutcome) : HandlerOutput :=
  runHandler callbacks extraSessionId
    (pushMessage (userId.getD (destinationId envDest)) message)

/-- The `get_profile` handler (lines 225-269):
`targetUserId = userId ?? destinationId`, then `getProfile(targetUserId)`
inside the shared try/catch body. -/
def getProfileHandler (callbacks : CallbackTable) (extraSessionId : Option String)
    (envDest : Option String) (userId : Option String)
    (getProfile : String → RemoteOutcome) : HandlerOutput :=
  runHandler callbacks extraSessionId
    (getProfile (userId.getD (destinationId envDest)))

/-- The mutable server state: the transport table keyed by session id
(line 277, only the keys matter to the coordinator logic), the
completion-callback table (line 59), the set of promises whose resolve has
been called, and a counter supplying fresh promise ids (each
`new Promise(resolve => ...)` on line 359 creates a fresh promise). -/
structure ServerState where
  transports : List String
  completionCallbacks : CallbackTable
  resolvedPromises : List Nat
  nextPromise : Nat
deriving Repr, DecidableEq

/-- The server state at process start: both tables empty. -/
def initialState : ServerState :=
  { transports := [], completionCallbacks := [], resolvedPromises := [], nextPromise := 0 }

/-- `GET /sse` (lines 315-346): a new transport is created and stored under
its session id. -/
def handleSseOpen (st : ServerState) (sid : String) : ServerState :=
  { st with transports := sid :: st.transports }

/-- The `res.on("close")` handler (lines 324-329): deletes
`transports[sid]` and `completionCallbacks[sid]`.  It does not call the
stored callback, so `resolvedPromises` is untouched. -/
def handleSseClose (st : ServerState) (sid : String) : ServerState :=
  { st with transports := st.transports.filter (fun s => s != sid),
            completionCallbacks := removeKey st.completionCallbacks sid }

/-- Synchronous outcome of the start of `POST /messages` (lines 349-361):
either the 400 rejection when no transport matches the `sessionId` query
parameter, or the id of the fresh completion promise that was registered. -/
inductive PostBeginResult where
  | rejected (status : Nat) : PostBeginResult
  | registered (promiseId : Nat) : PostBeginResult
deriving Repr, DecidableEq

/-- The start of `POST /messages` (lines 349-361): look up
`transports[sessionId]`; if absent respond 400 with the state unchanged;
if present create a fresh promise and store its resolve closure with
`completionCallbacks[sessionId] = resolve`, replacing any entry already
there. -/
def postMessagesBegin (st : ServerState) (sid : String) : PostBeginResult × ServerState :=
  if sid ∈ st.transports then
    (.registered st.nextPromise,
     { st with
        completionCallbacks := insertKey st.completionCallbacks sid st.nextPromise,
        nextPromise := st.nextPromise + 1 })
  else
    (.rejected 400, st)

/-- The catch branch of `POST /messages` (lines 383-393): on a dispatch
error, `delete completionCallbacks[sessionId]` and respond 500. -/
def postMessagesError (st : ServerState) (sid : String) : ServerState :=
  { st with completionCallbacks := removeKey st.completionCallbacks sid }

/-- A tool-handler execution inside the server: run the shared handler body
against the current callback table and record the fired callbacks' promises
as resolved.  The handler never deletes its session's callback entry. -/
def dispatchTool (st : ServerState) (extraSessionId : Option String)
    (outcome : RemoteOutcome) : ServerState × HandlerOutput :=
  let out := runHandler st.completionCallbacks extraSessionId outcome
  ({ st with resolvedPromises := out.signaled ++ st.resolvedPromises }, out)

/-- `await toolExecutionComplete` (lines 372-376): the suspended
`POST /messages` request finishes exactly when its registered promise has
resolved.  The code offers no timeout alternative to this await. -/
def postRequestFinished (st : ServerState) (p : Nat) : Bool :=
  st.resolvedPromises.contains p

/-- The events the event loop can interleave: an SSE connection opening, a
connection close firing, the registration phase of a `POST /messages`, a
tool-handler execution, and the catch branch of `POST /messages`. -/
inductive Event where
  | sseOpen (sid : String) : Event
  | sseClose (sid : String) : Event
  | postBegin (sid : String) : Event
  | toolRun (extraSessionId : Option String) (outcome : RemoteOutcome) : Event
  | postError (sid : String) : Event

/-- State transition of one event. -/
def step (st : ServerState) : Event → ServerState
  | .sseOpen sid => handleSseOpen st sid
  | .sseClose sid => handleSseClose st sid
  | .postBegin sid => (postMessagesBegin st sid).2
  | .toolRun extraSid outcome => (dispatchTool st extraSid outcome).1
  | .postError sid => postMessagesError st sid

/-- Run a sequence of events from a state. -/
def runEvents (st : ServerState) (es : List Event) : ServerState :=
  es.foldl step st

/-- Promise `p` is orphaned in state `st`: it was already allocated, has not
been resolved, and no callback entry can still resolve it. -/
def Orphaned (st : ServerState) (p : Nat) : Prop :=
  p < st.nextPromise ∧ p ∉ st.resolvedPromises ∧
    p ∉ st.completionCallbacks.map Prod.snd

theorem lookup_mem_snd {t : CallbackTable} {sid : String} {p : Nat}
    (h : lookupCallback t sid = some p) : p ∈ t.map Prod.snd := by
  induction t with
  | nil => simp [lookupCallback] at h
  | cons e rest ih =>
    obtain ⟨k, v⟩ := e
    rw [lookupCallback, List.lookup] at h
    cases hbeq : sid == k with
    | true =>
      rw [hbeq] at h
      simp only [Option.some.injEq] at h
      simp [← h]
    | false =>
      rw [hbeq] at h
      exact List.mem_cons_of_mem _ (ih h)

theorem mem_snd_removeKey {t : CallbackTable} {sid : String} {p : Nat}
    (h : p ∈ (removeKey t sid).map Prod.snd) : p ∈ t.map Prod.snd := by
  rw [List.mem_map] at h ⊢
  obtain ⟨e, he, hep⟩ := h
  exact ⟨e, List.mem_of_mem_filter he, hep⟩

theorem lookup_removeKey (t : CallbackTable) (sid : String) :
    lookupCallback (removeKey t sid) sid = none := by
  induction t with
  | nil => rfl
  | cons e rest ih =>
    obtain ⟨k, v⟩ := e
    by_cases hk : k = sid
    · simpa [removeKey, hk] using ih
    · have hbeq : (sid == k) = false := beq_eq_false_iff_ne.mpr (Ne.symm hk)
      have hkeep : (k != sid) = true := by
        simp [bne, beq_eq_false_iff_ne.mpr hk]
      simp only [removeKey, List.filter] at ih ⊢
      rw [hkeep]
      rw [lookupCallback, List.lookup, hbeq]
      exact ih

theorem lookup_insertKey (t : CallbackTable) (sid : String) (p : Nat) :
    lookupCallback (insertKey t sid p) sid = some p := by
  simp [insertKey, lookupCallback, List.lookup]

theorem runHandler_signaled_some (callbacks : CallbackTable) (sid : String)
    (p : Nat) (outcome : RemoteOutcome)
    (h : lookupCallback callbacks sid = some p) :
    (runHandler callbacks (some sid) outcome).signaled = [p] := by
  cases outcome <;> simp [runHandler, h]

theorem runHandler_signaled_subset (callbacks : CallbackTable)
    (extraSid : Option String) (outcome : RemoteOutcome) :
    ∀ q ∈ (runHandler callbacks extraSid outcome).signaled,
      q ∈ callbacks.map Prod.snd := by
  intro q hq
  cases extraSid with
  | none => cases outcome <;> simp [runHandler] at hq
  | some sid =>
    cases hl : lookupCallback callbacks sid with
    | none => cases outcome <;> simp [runHandler, hl] at hq
    | some r =>
      cases outcome <;> simp [runHandler, hl] at hq <;> exact hq ▸ lookup_mem_snd hl

/-- No event can resolve an orphaned promise or re-create a callback for it:
every event either leaves both tables alone, shrinks the callback table, or
registers a fresh promise id strictly larger than the orphan. -/
theorem orphaned_step {st : ServerState} {p : Nat} (h : Orphaned st p)
    (e : Event) : Orphaned (step st e) p := by
  obtain ⟨hlt, hres, hcb⟩ := h
  cases e with
  | sseOpen sid => exact ⟨hlt, hres, hcb⟩
  | sseClose sid =>
    exact ⟨hlt, hres, fun hm => hcb (mem_snd_removeKey hm)⟩
  | postBegin sid =>
    by_cases hmem : sid ∈ st.transports
    · have hstep : step st (Event.postBegin sid) =
          { st with
              completionCallbacks := insertKey st.completionCallbacks sid st.nextPromise,
              nextPromise := st.nextPromise + 1 } := by
        simp only [step, postMessagesBegin, if_pos hmem]
      rw [hstep]
      refine ⟨Nat.lt_succ_of_lt hlt, hres, ?_⟩
      intro hm
      simp only [insertKey, List.map_cons, List.mem_cons] at hm
      rcases hm with h1 | h2
      · omega
      · exact hcb (mem_snd_removeKey h2)
    · have hstep : step st (Event.postBegin sid) = st := by
        simp only [step, postMessagesBegin, if_neg hmem]
      rw [hstep]
      exact ⟨hlt, hres, hcb⟩
  | toolRun extraSid outcome =>
    refine ⟨hlt, ?_, hcb⟩
    simp only [step, dispatchTool, List.mem_append]
    rintro (hs | hr)
    · exact hcb (runHandler_signaled_subset st.completionCallbacks extraSid outcome p hs)
    · exact hres hr
  | postError sid =>
    exact ⟨hlt, hres, fun hm => hcb (mem_snd_removeKey hm)⟩

/-- An orphaned promise stays orphaned along any event sequence. -/
theorem orphaned_runEvents {st : ServerState} {p : Nat} (h : Orphaned st p)
    (es : List Event) : Orphaned (runEvents st es) p := by
  induction es generalizing st with
  | nil => exact h
  | cons e rest ih => exact ih (orphaned_step h e)

theorem contains_eq_false_of_not_mem {l : List Nat} {p : Nat} (h : p ∉ l) :
    l.contains p = false := by
  rw [Bool.eq_false_iff]
  intro hc
  exact h (List.elem_iff.mp hc)

/-- C1: a valid tool invocation of any of the three tools, dispatched
against an open session whose pending completion is registered, produces
exactly one Tool Result (a single result whose content holds exactly one
item) and fires the session's completion signal exactly once — for every
remote API behavior, so both when the call succeeds and when it throws. -/
theorem valid_invocation_one_result_one_signal
    (callbacks : CallbackTable) (sid : String) (p : Nat)
    (envDest userId : Option String) (message : Json)
    (apiPushText apiPushFlex : String → Json → RemoteOutcome)
    (apiGetProfile : String → RemoteOutcome)
    (hreg : lookupCallback callbacks sid = some p) :
    ((pushTextHandler callbacks (some sid) envDest userId message apiPushText).signaled = [p] ∧
      (pushTextHandler callbacks (some sid) envDest userId message apiPushText).result.content.length = 1) ∧
    ((pushFlexHandler callbacks (some sid) envDest userId message apiPushFlex).signaled = [p] ∧
      (pushFlexHandler callbacks (some sid) envDest userId message apiPushFlex).result.content.length = 1) ∧
    ((getProfileHandler callbacks (some sid) envDest userId apiGetProfile).signaled = [p] ∧
      (getProfileHandler callbacks (some sid) envDest userId apiGetProfile).result.content.length = 1) := by
  have key : ∀ outcome : RemoteOutcome,
      (runHandler callbacks (some sid) outcome).signaled = [p] ∧
      (runHandler callbacks (some sid) outcome).result.content.length = 1 := by
    intro outcome
    cases outcome <;> simp [runHandler, hreg]
  exact ⟨key _, key _, key _⟩

/-- Witness for C1 at a concrete input: session `"S"` with promise `0`
registered, the remote call throwing. -/
theorem valid_invocation_one_result_one_signal_witness :
    lookupCallback [("S", 0)] "S" = some 0 ∧
    (pushTextHandler [("S", 0)] (some "S") none none Json.null
      (fun _ _ => RemoteOutcome.thrown "boom")).signaled = [0] :=
  ⟨by decide,
    (valid_invocation_one_result_one_signal [("S", 0)] "S" 0 none none Json.null
      (fun _ _ => RemoteOutcome.thrown "boom") (fun _ _ => RemoteOutcome.thrown "boom")
      (fun _ => RemoteOutcome.thrown "boom") (by decide)).1.1⟩

/-- C5: a `POST /messages` whose `sessionId` matches no stored transport is
answered with HTTP 400 and the state — in particular the
completion-callback table — is unchanged: no completion is registered. -/
theorem post_unknown_session_rejected_without_registration
    (st : ServerState) (sid : String) (h : sid ∉ st.transports) :
    postMessagesBegin st sid = (.rejected 400, st) := by
  simp [postMessagesBegin, h]

/-- Witness for C5: the empty server state holds no transport `"S"`. -/
theorem post_unknown_session_rejected_without_registration_witness :
    "S" ∉ initialState.transports ∧
    postMessagesBegin initialState "S" = (.rejected 400, initialState) :=
  ⟨by decide,
    post_unknown_session_rejected_without_registration initialState "S" (by decide)⟩

/-- C6: every tool-handler execution returns, on remote success, the result
`\x7b content: [\x7b type: "text", text: JSON.stringify(response) \x7d] \x7d`
(no error flag), and on a thrown remote error the captured-result
`\x7b isError: true, content: [\x7b type: "text", text: "Error: " + message \x7d] \x7d`;
`runHandler` is a total function, so the error is returned as a Tool
Result, never propagated as a thrown transport-level error. -/
theorem handler_result_shape (callbacks : CallbackTable)
    (extraSid : Option String) (response : Json) (message : String) :
    (runHandler callbacks extraSid (.ok response)).result =
      { isError := false,
        content := [{ type := "text", text := Json.encode response }] } ∧
    (runHandler callbacks extraSid (.thrown message)).result =
      { isError := true,
        content := [{ type := "text", text := "Error: " ++ message }] } :=
  ⟨rfl, rfl⟩

/-- C7: `get_profile` invoked with `userId = "U1"` against an open session
returns a Tool Result whose text is exactly the JSON encoding of the value
the remote client returned for `getProfile("U1")`, unmodified. -/
theorem get_profile_roundtrip (callbacks : CallbackTable)
    (extraSid : Option String) (envDest : Option String)
    (getProfile : String → RemoteOutcome) (v : Json)
    (h : getProfile "U1" = .ok v) :
    (getProfileHandler callbacks extraSid envDest (some "U1") getProfile).result =
      { isError := false,
        content := [{ type := "text", text := Json.encode v }] } := by
  unfold getProfileHandler
  rw [Option.getD_some, h]
  rfl

/-- Witness for C7: a remote client returning a concrete profile value. -/
theorem get_profile_roundtrip_witness :
    (fun _ : String => RemoteOutcome.ok (Json.str "alice")) "U1" =
      RemoteOutcome.ok (Json.str "alice") ∧
    (getProfileHandler [] none none (some "U1")
        (fun _ => RemoteOutcome.ok (Json.str "alice"))).result =
      { isError := false,
        content := [{ type := "text", text := Json.encode (Json.str "alice") }] } :=
  ⟨rfl, get_profile_roundtrip [] none none
    (fun _ => RemoteOutcome.ok (Json.str "alice")) (Json.str "alice") rfl⟩

/-- C9: in each of the three tool handlers, an omitted `userId` makes the
remote call target `destinationId` — the value of `DESTINATION_USER_ID`
read at startup, the empty string when unset — while a provided `userId`
makes the call target exactly that id, ignoring the default. -/
theorem default_destination_resolution (callbacks : CallbackTable)
    (extraSid : Option String) (envDest : Option String) (u : String)
    (message : Json) (apiPush : String → Json → RemoteOutcome)
    (apiProfile : String → RemoteOutcome) :
    destinationId none = "" ∧
    (∀ s, destinationId (some s) = s) ∧
    pushTextHandler callbacks extraSid envDest none message apiPush =
      runHandler callbacks extraSid (apiPush (destinationId envDest) message) ∧
    pushTextHandler callbacks extraSid envDest (some u) message apiPush =
      runHandler callbacks extraSid (apiPush u message) ∧
    pushFlexHandler callbacks extraSid envDest none message apiPush =
      runHandler callbacks extraSid (apiPush (destinationId envDest) message) ∧
    pushFlexHandler callbacks extraSid envDest (some u) message apiPush =
      runHandler callbacks extraSid (apiPush u message) ∧
    getProfileHandler callbacks extraSid envDest none apiProfile =
      runHandler callbacks extraSid (apiProfile (destinationId envDest)) ∧
    getProfileHandler callbacks extraSid envDest (some u) apiProfile =
      runHandler callbacks extraSid (apiProfile u) :=
  ⟨rfl, fun _ => rfl, rfl, rfl, rfl, rfl, rfl, rfl⟩

/-- C10: when no completion callback is registered for the invocation's
session — `extra.sessionId` undefined, or the entry deleted, e.g. by the
close handler mid-flight — the guarded lookup fires no signal and the
handler still returns its single Tool Result normally; being a total
function it cannot throw on the missing entry. -/
theorem handler_missing_callback_safe (callbacks : CallbackTable)
    (extraSid : Option String) (outcome : RemoteOutcome)
    (h : ∀ sid, extraSid = some sid → lookupCallback callbacks sid = none) :
    (runHandler callbacks extraSid outcome).signaled = [] ∧
    (runHandler callbacks extraSid outcome).result.content.length = 1 := by
  cases extraSid with
  | none => cases outcome <;> simp [runHandler]
  | some sid =>
    have hl := h sid rfl
    cases outcome <;> simp [runHandler, hl]

/-- Witness for C10: session `"S"` present in `extra` but with no entry in
an empty callback table. -/
theorem handler_missing_callback_safe_witness :
    lookupCallback [] "S" = none ∧
    ((runHandler [] (some "S") (RemoteOutcome.ok Json.null)).signaled = [] ∧
      (runHandler [] (some "S") (RemoteOutcome.ok Json.null)).result.content.length = 1) :=
  ⟨rfl, handler_missing_callback_safe [] (some "S") (RemoteOutcome.ok Json.null)
    (fun _ _ => rfl)⟩

/-- Server state after opening session `"S"` and registering the completion
of its first invocation: `completionCallbacks = [("S", 0)]`,
`nextPromise = 1`, nothing resolved yet. -/
def afterFirstRegister : ServerState :=
  step (step initialState (.sseOpen "S")) (.postBegin "S")

/-- C2, the code evaluated at the failing input: with the first
invocation's completion (promise `0`) still pending for session `"S"`, a
second `POST /messages` for `"S"` is accepted (`registered`, not a busy
rejection and not queued) and the table afterwards holds only the second
promise — the first invocation's pending-completion entry was silently
replaced. -/
theorem second_invocation_silently_replaces_pending :
    (postMessagesBegin (step initialState (.sseOpen "S")) "S").1 =
      .registered 0 ∧
    lookupCallback afterFirstRegister.completionCallbacks "S" = some 0 ∧
    (postMessagesBegin afterFirstRegister "S").1 = .registered 1 ∧
    (postMessagesBegin afterFirstRegister "S").2.completionCallbacks = [("S", 1)] := by
  refine ⟨?_, ?_, ?_, ?_⟩ <;> decide

/-- Server state for C3: session `"S"` opened, an invocation in flight with
promise `0` registered, then the SSE connection's close event fires. -/
def closedMidFlight : ServerState :=
  step afterFirstRegister (.sseClose "S")

/-- C3: the close handler does remove the session from the transport table
and the entry from the callback table, but it never invokes the stored
resolve, so along every possible continuation of the system the suspended
`POST /messages` request (awaiting promise `0`) is never released — it
hangs forever instead of completing within bounded time. -/
theorem close_removes_session_but_never_releases_request :
    closedMidFlight.transports = [] ∧
    closedMidFlight.completionCallbacks = [] ∧
    0 ∉ closedMidFlight.resolvedPromises ∧
    ∀ es : List Event,
      postRequestFinished (runEvents closedMidFlight es) 0 = false := by
  refine ⟨by decide, by decide, by decide, ?_⟩
  intro es
  have horph : Orphaned closedMidFlight 0 := ⟨by decide, by decide, by decide⟩
  exact contains_eq_false_of_not_mem (orphaned_runEvents horph es).2.1

/-- C4 counterexample: starting from session `"S"` with its invocation's
completion registered (promise `0`), running the tool handler to produce
its result resolves the promise, yet the pending-completion entry for
`"S"` is still in the completion table afterwards — it is not removed when
the result is produced. -/
theorem completion_entry_persists_after_result :
    (dispatchTool afterFirstRegister (some "S")
        (RemoteOutcome.ok Json.null)).1.resolvedPromises = [0] ∧
    lookupCallback (dispatchTool afterFirstRegister (some "S")
        (RemoteOutcome.ok Json.null)).1.completionCallbacks "S" = some 0 ∧
    lookupCallback (dispatchTool afterFirstRegister (some "S")
        (RemoteOutcome.ok Json.null)).1.completionCallbacks "S" ≠ none := by
  refine ⟨?_, ?_, ?_⟩ <;> decide

/-- C4 as amended: the pending-completion entry is created (with the fresh
promise id) when an invocation begins; producing the invocation's result
fires the completion signal but leaves the entry in the table; the entry
is removed only by the close handler or by the dispatch-error branch of
`POST /messages` (or replaced when a new invocation begins). -/
theorem completion_entry_lifecycle (st : ServerState) (sid : String)
    (p : Nat) (outcome : RemoteOutcome)
    (hopen : sid ∈ st.transports)
    (hreg : lookupCallback st.completionCallbacks sid = some p) :
    lookupCallback (postMessagesBegin st sid).2.completionCallbacks sid =
      some st.nextPromise ∧
    (p ∈ (dispatchTool st (some sid) outcome).1.resolvedPromises ∧
      lookupCallback (dispatchTool st (some sid) outcome).1.completionCallbacks sid =
        some p) ∧
    lookupCallback (handleSseClose st sid).completionCallbacks sid = none ∧
    lookupCallback (postMessagesError st sid).completionCallbacks sid = none := by
  refine ⟨?_, ⟨?_, ?_⟩, ?_, ?_⟩
  · simp only [postMessagesBegin, if_pos hopen]
    exact lookup_insertKey st.completionCallbacks sid st.nextPromise
  · have hs := runHandler_signaled_some st.completionCallbacks sid p outcome hreg
    simp [dispatchTool, hs]
  · exact hreg
  · exact lookup_removeKey st.completionCallbacks sid
  · exact lookup_removeKey st.completionCallbacks sid

/-- Witness for C4's amended lifecycle at a concrete input: the state
`afterFirstRegister` with session `"S"` open and promise `0` registered. -/
theorem completion_entry_lifecycle_witness :
    ("S" ∈ afterFirstRegister.transports ∧
      lookupCallback afterFirstRegister.completionCallbacks "S" = some 0) ∧
    lookupCallback (dispatchTool afterFirstRegister (some "S")
        (RemoteOutcome.thrown "boom")).1.completionCallbacks "S" = some 0 :=
  ⟨⟨by decide, by decide⟩,
    ((completion_entry_lifecycle afterFirstRegister "S" 0
      (RemoteOutcome.thrown "boom") (by decide) (by decide)).2.1).2⟩

/-- Server state for C8: session `"S"` opened, a first invocation registers
promise `0`, then a second `POST /messages` overwrites the entry with
promise `1`; promise `0` now has no callback left that could resolve it. -/
def overwrittenPending : ServerState :=
  step afterFirstRegister (.postBegin "S")

/-- C8: the await of `toolExecutionComplete` has no timeout branch — the
request finishes exactly when its promise resolves, and a promise whose
completion callback is gone is never resolved along any continuation of
the system, so the suspended request hangs indefinitely; no bounded
timeout ever releases it with an internal-error status. -/
theorem unresolved_completion_hangs_without_timeout :
    lookupCallback overwrittenPending.completionCallbacks "S" = some 1 ∧
    postRequestFinished overwrittenPending 0 = false ∧
    ∀ es : List Event,
      postRequestFinished (runEvents overwrittenPending es) 0 = false := by
  refine ⟨by decide, by decide, ?_⟩
  intro es
  have horph : Orphaned overwrittenPending 0 := ⟨by decide, by decide, by decide⟩
  exact contains_eq_false_of_not_mem (orphaned_runEvents horph es).2.1

end LineBotMcp
